import Mathlib

/-!
Verification of the DocuWeaver coordinate calibration and transform engine.

The development shallowly embeds the calibration / cadastre-projection code of
the repository:

* `src/drawings/services/cadastre_service.py` — `transform_ring`,
  `transform_geometry`, `transform_cadastre_to_project_coords`;
* `src/drawings/api_views.py` — `_parse_finite_float`, `calibrate_project`;
* `src/drawings/views.py` — the calibration fields of
  `_create_project_from_data` (project import);
* `src/drawings/models.py` — the calibration fields and defaults of `Project`.

Python floats are embedded abstractly: the arithmetic of the transform is
stated over an arbitrary carrier type `K` equipped with the arithmetic
operations and a bundle `NumOps K` holding the transcendental functions
(`math.pi`, `math.cos`, `math.sin`) and the two float predicates the code
uses (`not x` truthiness and `x <= 0`).  Instantiating `K := ℝ` with real
trigonometry gives the idealised reading of the spec; instantiating `K := ℚ`
gives an executable model of the finite floats (used by witnesses); a small
IEEE-style type `FP` with `nan` / `inf` / `neginf` values is instantiated
where the behaviour on non-finite floats is at issue.
-/

namespace DocuWeaver

/-- The numeric operations of Python's `math` module and float semantics that
the transform code uses, bundled so that the embedding can be instantiated at
`ℝ` (ideal reals), `ℚ` (executable finite floats) or `FP` (floats with
non-finite values). `isFalsy x` models Python truthiness `not x` on a float
(true exactly for `0.0` and `-0.0`); `leZero x` models the comparison
`x <= 0` (false whenever `x` is NaN). -/
structure NumOps (K : Type) where
  pi : K
  cos : K → K
  sin : K → K
  isFalsy : K → Bool
  leZero : K → Bool

variable {K : Type} [Add K] [Mul K] [Sub K] [Neg K] [Div K] [NatCast K]

/-- One iteration of the `for coord in ring` loop of `transform_ring`
(`src/drawings/services/cadastre_service.py`, lines 228–255): projects a
single `[lon, lat]` coordinate to canvas pixel coordinates. -/
def transform_point (ops : NumOps K)
    (ref_lat ref_lon ref_pixel_x ref_pixel_y ppm asset_rotation_deg : K)
    (coord : K × K) : K × K :=
  let lon := coord.1
  let lat := coord.2
  let d_lon := lon - ref_lon
  let d_lat := lat - ref_lat
  let center_lat_rad := ref_lat * ops.pi / ((180 : ℕ) : K)
  let meters_x := d_lon * ((111320 : ℕ) : K) * ops.cos center_lat_rad
  let meters_y := -(d_lat * ((111320 : ℕ) : K))
  let rad := asset_rotation_deg * ops.pi / ((180 : ℕ) : K)
  let cos_r := ops.cos rad
  let sin_r := ops.sin rad
  let rot_x := meters_x * cos_r - meters_y * sin_r
  let rot_y := meters_x * sin_r + meters_y * cos_r
  let pixel_x := ref_pixel_x + (rot_x * ppm)
  let pixel_y := ref_pixel_y + (rot_y * ppm)
  (pixel_x, pixel_y)

/-- `transform_ring` (`src/drawings/services/cadastre_service.py`, lines
202–257): the loop appends the projected coordinate for each input
coordinate in order, i.e. maps `transform_point` over the ring. -/
def transform_ring (ops : NumOps K)
    (ref_lat ref_lon ref_pixel_x ref_pixel_y ppm asset_rotation_deg : K)
    (ring : List (K × K)) : List (K × K) :=
  ring.map (transform_point ops ref_lat ref_lon ref_pixel_x ref_pixel_y ppm asset_rotation_deg)

/-- A GeoJSON geometry as consumed by `transform_geometry`: the constructor
plays the role of the `type` tag of the geometry dict; `other` covers every
non-Polygon, non-MultiPolygon kind, whose coordinate payload the code never
inspects (it is returned unchanged by the `else` branch). -/
inductive Geom (K : Type) where
  | polygon (rings : List (List (K × K)))
  | multiPolygon (polys : List (List (List (K × K))))
  | other (kind : String) (coords : List (List (K × K)))
deriving DecidableEq, Repr

/-- `transform_geometry` (`src/drawings/services/cadastre_service.py`, lines
149–199): Polygon maps `transform_ring` over its rings, MultiPolygon over
every ring of every polygon; any other kind passes its coordinates through
unchanged. -/
def transform_geometry (ops : NumOps K)
    (ref_lat ref_lon ref_pixel_x ref_pixel_y ppm asset_rotation_deg : K) :
    Geom K → Geom K
  | .polygon rings =>
      .polygon (rings.map
        (transform_ring ops ref_lat ref_lon ref_pixel_x ref_pixel_y ppm asset_rotation_deg))
  | .multiPolygon polys =>
      .multiPolygon (polys.map (fun polygon =>
        polygon.map
          (transform_ring ops ref_lat ref_lon ref_pixel_x ref_pixel_y ppm asset_rotation_deg)))
  | .other kind coords => .other kind coords

/-- The three projection steps exactly as the specification words them
(spec §4.2 steps 1–3): equirectangular metric offset, 2D rotation by the
asset rotation converted to radians, then scale by `ppm` and translate by
the reference pixel. Written from the spec text, to be compared with
`transform_point` (which is written from the source). -/
def spec_projected_pixel (ops : NumOps K)
    (lon lat ref_lon ref_lat ref_pixel_x ref_pixel_y ppm asset_rotation_deg : K) : K × K :=
  let meters_x := (lon - ref_lon) * ((111320 : ℕ) : K) * ops.cos (ref_lat * ops.pi / ((180 : ℕ) : K))
  let meters_y := -((lat - ref_lat) * ((111320 : ℕ) : K))
  let r := asset_rotation_deg * ops.pi / ((180 : ℕ) : K)
  let rot_x := meters_x * ops.cos r - meters_y * ops.sin r
  let rot_y := meters_x * ops.sin r + meters_y * ops.cos r
  (ref_pixel_x + rot_x * ppm, ref_pixel_y + rot_y * ppm)

/-- The fields of the `Asset` model read by the cadastre transform
(`src/drawings/models.py`): the asset id and its current coordinates
(`current_x` = longitude, `current_y` = latitude for geographic projects). -/
structure Asset (K : Type) where
  asset_id : String
  current_x : K
  current_y : K
deriving DecidableEq, Repr

/-- The calibration fields of the `Project` model
(`src/drawings/models.py`, lines 15–36), together with the project's assets
(standing for the `Asset` rows of the project, which
`transform_cadastre_to_project_coords` queries by `asset_id`). -/
structure Project (K : Type) where
  pixels_per_meter : K
  scale_calibrated : Bool
  coord_unit : String
  origin_x : K
  origin_y : K
  canvas_rotation : K
  asset_rotation : K
  ref_asset_id : String
  ref_pixel_x : K
  ref_pixel_y : K
  assets : List (Asset K)
deriving DecidableEq, Repr

/-- A GeoJSON feature as consumed and produced by
`transform_cadastre_to_project_coords`: `feature.get('geometry')` may be
absent (`none`), and the `properties` mapping is an opaque payload (embedded
as an association list). -/
structure Feature (K : Type) where
  geometry : Option (Geom K)
  properties : List (String × String)
deriving DecidableEq, Repr

/-- The reference-asset lookup of `transform_cadastre_to_project_coords`
(lines 102–112): `if project.ref_asset_id:` (the empty string is falsy)
followed by `Asset.objects.filter(project=project, asset_id=...).first()`. -/
def findRefAsset (project : Project K) : Option (Asset K) :=
  if project.ref_asset_id = "" then none
  else project.assets.find? (fun a => a.asset_id = project.ref_asset_id)

/-- The `for feature in geojson_features['features']` loop of
`transform_cadastre_to_project_coords` (lines 127–146): features whose
geometry is absent or neither Polygon nor MultiPolygon are skipped
(`continue`); the rest are transformed and appended with their properties
carried over. -/
def transformFeaturesLoop (ops : NumOps K)
    (ref_lat ref_lon ref_pixel_x ref_pixel_y ppm asset_rotation_deg : K) :
    List (Feature K) → List (Feature K)
  | [] => []
  | f :: rest =>
    match f.geometry with
    | some (Geom.polygon rings) =>
        { geometry := some (transform_geometry ops ref_lat ref_lon ref_pixel_x ref_pixel_y ppm
            asset_rotation_deg (Geom.polygon rings)),
          properties := f.properties } ::
          transformFeaturesLoop ops ref_lat ref_lon ref_pixel_x ref_pixel_y ppm
            asset_rotation_deg rest
    | some (Geom.multiPolygon polys) =>
        { geometry := some (transform_geometry ops ref_lat ref_lon ref_pixel_x ref_pixel_y ppm
            asset_rotation_deg (Geom.multiPolygon polys)),
          properties := f.properties } ::
          transformFeaturesLoop ops ref_lat ref_lon ref_pixel_x ref_pixel_y ppm
            asset_rotation_deg rest
    | _ =>
        transformFeaturesLoop ops ref_lat ref_lon ref_pixel_x ref_pixel_y ppm
          asset_rotation_deg rest

/-- `transform_cadastre_to_project_coords`
(`src/drawings/services/cadastre_service.py`, lines 85–146). The input is
the `features` list of the GeoJSON FeatureCollection, with `none` standing
for a missing/empty collection (`not geojson_features or 'features' not in
geojson_features`). Returns the transformed feature list; an absent
reference asset or an invalid `pixels_per_meter` (`not ppm or ppm <= 0`)
yields the empty list. -/
def transform_cadastre_to_project_coords (ops : NumOps K)
    (geojson_features : Option (List (Feature K))) (project : Project K) :
    List (Feature K) :=
  match geojson_features with
  | none => []
  | some features =>
    match findRefAsset project with
    | none => []
    | some ref_asset =>
      let ref_lat := ref_asset.current_y
      let ref_lon := ref_asset.current_x
      let ref_pixel_x := project.ref_pixel_x
      let ref_pixel_y := project.ref_pixel_y
      let ppm := project.pixels_per_meter
      let asset_rotation_deg := project.asset_rotation
      if ops.isFalsy ppm || ops.leZero ppm then []
      else
        transformFeaturesLoop ops ref_lat ref_lon ref_pixel_x ref_pixel_y ppm
          asset_rotation_deg features

/-- The structural shape of a geometry: its kind tag together with the
number of points of each ring, ring by ring (and polygon by polygon for a
MultiPolygon), in order. -/
inductive GeomShape where
  | polygon (ringLens : List Nat)
  | multiPolygon (polyLens : List (List Nat))
  | other (kind : String) (coordLens : List Nat)
deriving DecidableEq, Repr

/-- Computes the `GeomShape` of a geometry. -/
def geomShape : Geom K → GeomShape
  | .polygon rings => .polygon (rings.map List.length)
  | .multiPolygon polys => .multiPolygon (polys.map (fun p => p.map List.length))
  | .other kind coords => .other kind (coords.map List.length)

/-- Whether a feature's geometry kind is Polygon or MultiPolygon (the
filter applied by the feature loop). -/
def isPolyKind : Option (Geom K) → Bool
  | some (.polygon _) => true
  | some (.multiPolygon _) => true
  | _ => false

/-- The transformed feature built by the loop body for a kept feature. -/
def projectedFeature (ops : NumOps K)
    (ref_lat ref_lon ref_pixel_x ref_pixel_y ppm asset_rotation_deg : K)
    (f : Feature K) : Feature K :=
  { geometry := (f.geometry).map
      (transform_geometry ops ref_lat ref_lon ref_pixel_x ref_pixel_y ppm asset_rotation_deg),
    properties := f.properties }

/-- A raw value supplied for a numeric field of the calibration request.
`notNum` stands for any value `float(...)` cannot parse (absent string
content, lists, non-numeric strings, `None`); `nan`, `inf`, `neginf` are the
parseable but non-finite floats; `num q` is a finite float value (every
finite double is a rational). -/
inductive RawValue where
  | notNum
  | nan
  | inf
  | neginf
  | num (q : ℚ)
deriving DecidableEq, Repr

/-- `_parse_finite_float` (`src/drawings/api_views.py`, lines 338–346):
unparseable values raise `ValueError "'name' must be a valid number, got:
..."`; parseable non-finite values raise `ValueError "'name' must be a
finite number, got: ..."`. The embedding keeps the field-naming part of each
message and drops the quoting and the `got:` echo of the offending value. -/
def parse_finite_float (value : RawValue) (name : String) : Except String ℚ :=
  match value with
  | .notNum => .error (name ++ " must be a valid number")
  | .nan | .inf | .neginf => .error (name ++ " must be a finite number")
  | .num q => .ok q

/-- The body of `calibrate_project`'s request (`request.data`): each field is
optional; numeric fields carry a `RawValue`, `ref_asset_id` is stringified
by the code and `coord_unit` is compared against the unit enumeration. -/
structure CalibrationRequest where
  pixel_distance : Option RawValue
  real_distance : Option RawValue
  origin_x : Option RawValue
  origin_y : Option RawValue
  canvas_rotation : Option RawValue
  asset_rotation : Option RawValue
  ref_asset_id : Option String
  ref_pixel_x : Option RawValue
  ref_pixel_y : Option RawValue
  coord_unit : Option String
deriving DecidableEq, Repr

/-- An absent optional field parses to the current value (the code simply
does not assign the attribute); a present one goes through
`_parse_finite_float`. -/
def parseOpt (v : Option RawValue) (name : String) (cur : ℚ) : Except String ℚ :=
  match v with
  | none => .ok cur
  | some raw => parse_finite_float raw name

/-- The scale-calibration block of `calibrate_project`
(`src/drawings/api_views.py`, lines 354–373): runs only when both
`pixel_distance` and `real_distance` are supplied; parses both (pixel first),
rejects `real_distance <= 0` then `pixel_distance <= 0`, and on success sets
`pixels_per_meter := pixel_distance / real_distance` and
`scale_calibrated := True` on the in-memory project. -/
def applyScale (r : CalibrationRequest) (p : Project ℚ) : Except String (Project ℚ) :=
  match r.pixel_distance, r.real_distance with
  | some vp, some vr =>
    match parse_finite_float vp "pixel_distance" with
    | .error e => .error e
    | .ok pd =>
      match parse_finite_float vr "real_distance" with
      | .error e => .error e
      | .ok rd =>
        if rd ≤ 0 then .error "real_distance must be greater than 0"
        else if pd ≤ 0 then .error "pixel_distance must be greater than 0"
        else .ok { p with pixels_per_meter := pd / rd, scale_calibrated := true }
  | _, _ => .ok p

/-- The origin block (lines 376–384): `origin_x` then `origin_y`, both in
one `try`, each assigned only when supplied. -/
def applyOrigin (r : CalibrationRequest) (p : Project ℚ) : Except String (Project ℚ) :=
  match parseOpt r.origin_x "origin_x" p.origin_x with
  | .error e => .error e
  | .ok ox =>
    match parseOpt r.origin_y "origin_y" p.origin_y with
    | .error e => .error e
    | .ok oy => .ok { p with origin_x := ox, origin_y := oy }

/-- The viewport-rotation block (lines 387–392). -/
def applyCanvasRotation (r : CalibrationRequest) (p : Project ℚ) :
    Except String (Project ℚ) :=
  match parseOpt r.canvas_rotation "canvas_rotation" p.canvas_rotation with
  | .error e => .error e
  | .ok cr => .ok { p with canvas_rotation := cr }

/-- The asset-layer-rotation block (lines 395–400). -/
def applyAssetRotation (r : CalibrationRequest) (p : Project ℚ) :
    Except String (Project ℚ) :=
  match parseOpt r.asset_rotation "asset_rotation" p.asset_rotation with
  | .error e => .error e
  | .ok ar => .ok { p with asset_rotation := ar }

/-- The `ref_asset_id` assignment (lines 402–404): never fails; the supplied
value is stringified and truncated to 100 characters. -/
def applyRefAssetId (r : CalibrationRequest) (p : Project ℚ) : Project ℚ :=
  match r.ref_asset_id with
  | some s => { p with ref_asset_id := s.take 100 }
  | none => p

/-- The reference-pixel block (lines 406–414): `ref_pixel_x` then
`ref_pixel_y`, both in one `try`. -/
def applyRefPixel (r : CalibrationRequest) (p : Project ℚ) : Except String (Project ℚ) :=
  match parseOpt r.ref_pixel_x "ref_pixel_x" p.ref_pixel_x with
  | .error e => .error e
  | .ok rx =>
    match parseOpt r.ref_pixel_y "ref_pixel_y" p.ref_pixel_y with
    | .error e => .error e
    | .ok ry => .ok { p with ref_pixel_x := rx, ref_pixel_y := ry }

/-- The recognized coordinate units (lines 417–419). -/
def validUnits : List String := ["meters", "degrees", "gda94_geo", "gda94_mga"]

/-- The coord-unit block (lines 417–423). -/
def applyCoordUnit (r : CalibrationRequest) (p : Project ℚ) : Except String (Project ℚ) :=
  match r.coord_unit with
  | none => .ok p
  | some u =>
    if u ∈ validUnits then .ok { p with coord_unit := u }
    else .error "coord_unit must be one of: meters, degrees, gda94_geo, gda94_mga"

/-- `calibrate_project` (`src/drawings/api_views.py`, lines 349–439): the
field blocks run in source order against the in-memory project row; the
first failing block returns a 400 response (`.error`) before `project.save()`
is reached; only the final `.ok` corresponds to the save. -/
def calibrate_project (p0 : Project ℚ) (r : CalibrationRequest) :
    Except String (Project ℚ) :=
  match applyScale r p0 with
  | .error e => .error e
  | .ok p1 =>
    match applyOrigin r p1 with
    | .error e => .error e
    | .ok p2 =>
      match applyCanvasRotation r p2 with
      | .error e => .error e
      | .ok p3 =>
        match applyAssetRotation r p3 with
        | .error e => .error e
        | .ok p4 =>
          let p5 := applyRefAssetId r p4
          match applyRefPixel r p5 with
          | .error e => .error e
          | .ok p6 => applyCoordUnit r p6

/-- The stored project row after the request: the code mutates an in-memory
copy field by field and calls `project.save()` only once, after every block;
every validation-failure path returns before the save, so the stored row
keeps its prior state. -/
def storedAfterCalibrate (db : Project ℚ) (r : CalibrationRequest) : Project ℚ :=
  match calibrate_project db r with
  | .ok p => p
  | .error _ => db

/-- The validation outcome of the scale block: the field name and message of
its first failure, if any (independent of the project state). -/
def scaleErr (r : CalibrationRequest) : Option (String × String) :=
  match r.pixel_distance, r.real_distance with
  | some vp, some vr =>
    match parse_finite_float vp "pixel_distance" with
    | .error e => some ("pixel_distance", e)
    | .ok pd =>
      match parse_finite_float vr "real_distance" with
      | .error e => some ("real_distance", e)
      | .ok rd =>
        if rd ≤ 0 then some ("real_distance", "real_distance must be greater than 0")
        else if pd ≤ 0 then some ("pixel_distance", "pixel_distance must be greater than 0")
        else none
  | _, _ => none

/-- The validation outcome of one optional numeric field. -/
def numFieldErr (v : Option RawValue) (name : String) : Option (String × String) :=
  match v with
  | none => none
  | some raw =>
    match parse_finite_float raw name with
    | .error e => some (name, e)
    | .ok _ => none

/-- The validation outcome of the coord-unit block. -/
def coordUnitErr (r : CalibrationRequest) : Option (String × String) :=
  match r.coord_unit with
  | none => none
  | some u =>
    if u ∈ validUnits then none
    else some ("coord_unit", "coord_unit must be one of: meters, degrees, gda94_geo, gda94_mga")

/-- The field name and message of the first invalid supplied field, scanning
the fields in the validation order of `calibrate_project`; `none` when every
supplied field is valid. -/
def firstValidationError (r : CalibrationRequest) : Option (String × String) :=
  match scaleErr r with
  | some fm => some fm
  | none =>
    match numFieldErr r.origin_x "origin_x" with
    | some fm => some fm
    | none =>
      match numFieldErr r.origin_y "origin_y" with
      | some fm => some fm
      | none =>
        match numFieldErr r.canvas_rotation "canvas_rotation" with
        | some fm => some fm
        | none =>
          match numFieldErr r.asset_rotation "asset_rotation" with
          | some fm => some fm
          | none =>
            match numFieldErr r.ref_pixel_x "ref_pixel_x" with
            | some fm => some fm
            | none =>
              match numFieldErr r.ref_pixel_y "ref_pixel_y" with
              | some fm => some fm
              | none => coordUnitErr r

/-- The field-specific messages the endpoint can emit for a given field
name: the parse failures of `_parse_finite_float`, the positivity failures
of the scale block, and the enumeration failure of `coord_unit`. -/
def fieldMessages (fld : String) : List String :=
  [ fld ++ " must be a valid number"
  , fld ++ " must be a finite number"
  , fld ++ " must be greater than 0"
  , fld ++ " must be one of: meters, degrees, gda94_geo, gda94_mga" ]

/-- The calibration-relevant entries of an import payload's `project` dict
(`project.json` / the SQLite `project_data` row): each key optional. -/
structure ImportProjectData where
  pixels_per_meter : Option ℚ
  scale_calibrated : Option Bool
  coord_unit : Option String
  origin_x : Option ℚ
  origin_y : Option ℚ
  canvas_rotation : Option ℚ
  asset_rotation : Option ℚ
  ref_asset_id : Option String
  ref_pixel_x : Option ℚ
  ref_pixel_y : Option ℚ
deriving DecidableEq, Repr

/-- The calibration fields of the Project row created by
`_create_project_from_data` (`src/drawings/views.py`, lines 637–655): every
field is copied from the payload with `project_data.get(key, default)` — no
validation is applied to any of them. Asset/sheet/file creation, name
deduplication and the surrounding transaction are outside the claims and
omitted; the created row starts with no assets. -/
def create_project_from_data (d : ImportProjectData) : Project ℚ :=
  { pixels_per_meter := d.pixels_per_meter.getD 100
    scale_calibrated := d.scale_calibrated.getD false
    coord_unit := d.coord_unit.getD "meters"
    origin_x := d.origin_x.getD 0
    origin_y := d.origin_y.getD 0
    canvas_rotation := d.canvas_rotation.getD 0
    asset_rotation := d.asset_rotation.getD 0
    ref_asset_id := d.ref_asset_id.getD ""
    ref_pixel_x := d.ref_pixel_x.getD 0
    ref_pixel_y := d.ref_pixel_y.getD 0
    assets := [] }

/-- A freshly created project row (`src/drawings/models.py` field defaults,
lines 21–36). -/
def defaultProject : Project ℚ :=
  { pixels_per_meter := 100
    scale_calibrated := false
    coord_unit := "meters"
    origin_x := 0
    origin_y := 0
    canvas_rotation := 0
    asset_rotation := 0
    ref_asset_id := ""
    ref_pixel_x := 0
    ref_pixel_y := 0
    assets := [] }

/-- A request supplying only the two scale-calibration fields. -/
def scaleOnlyRequest (vp vr : RawValue) : CalibrationRequest :=
  { pixel_distance := some vp
    real_distance := some vr
    origin_x := none
    origin_y := none
    canvas_rotation := none
    asset_rotation := none
    ref_asset_id := none
    ref_pixel_x := none
    ref_pixel_y := none
    coord_unit := none }

/-- A raw numeric value is invalid as a calibration distance when it is not
parseable, not finite, or parses to a non-positive number. -/
def invalidDistance : RawValue → Prop
  | .num q => q ≤ 0
  | _ => True

/-- The empty calibration request: no field supplied. -/
def emptyCalibrationRequest : CalibrationRequest :=
  { pixel_distance := none
    real_distance := none
    origin_x := none
    origin_y := none
    canvas_rotation := none
    asset_rotation := none
    ref_asset_id := none
    ref_pixel_x := none
    ref_pixel_y := none
    coord_unit := none }


/-- A concrete integer instantiation of the numeric operations, used by the
witnesses of the structural claims (which hold for every carrier and every
interpretation of the operations): `isFalsy`/`leZero` are the Python float
predicates on finite values; `pi`, `cos`, `sin` take arbitrary concrete
values. -/
def intTestOps : NumOps ℤ :=
  { pi := 3
    cos := fun _ => 1
    sin := fun _ => 0
    isFalsy := fun q => q = 0
    leZero := fun q => q ≤ 0 }

/-- A concrete project used by witnesses: one asset `A1` at geographic
coordinates `(145, -17)` placed at pixel `(500, 300)`, scale 10 px/m, zero
asset rotation. -/
def testProject : Project ℤ :=
  { pixels_per_meter := 10
    scale_calibrated := true
    coord_unit := "degrees"
    origin_x := 0
    origin_y := 0
    canvas_rotation := 0
    asset_rotation := 0
    ref_asset_id := "A1"
    ref_pixel_x := 500
    ref_pixel_y := 300
    assets := [{ asset_id := "A1", current_x := 145, current_y := -17 }] }

/-- A concrete mixed feature collection used by witnesses: a Polygon with a
hole (two rings), a Point feature, a feature with no geometry, and a
MultiPolygon. -/
def testFeatures : List (Feature ℤ) :=
  [ { geometry := some (Geom.polygon
        [[(145, -17), (146, -17), (145, -18)],
         [(145, -17), (146, -18)]])
      properties := [("LOT", "7")] }
  , { geometry := some (Geom.other "Point" [[(145, -17)]])
      properties := [("LOT", "8")] }
  , { geometry := none, properties := [("LOT", "9")] }
  , { geometry := some (Geom.multiPolygon
        [[[(145, -17)]], [[(146, -18)]]])
      properties := [("LOT", "10")] } ]


/-- Floats including the non-finite values, for the claims about NaN /
Infinity behaviour. The finite payload is an integer: every finite float
value the counterexample's computation path touches is an integer that IEEE
double arithmetic represents and combines exactly, so no rounding is
modelled. -/
inductive FP where
  | nan
  | inf
  | neginf
  | fin (z : ℤ)
deriving DecidableEq, Repr

/-- IEEE-style negation. -/
def FP.neg : FP → FP
  | .nan => .nan
  | .inf => .neginf
  | .neginf => .inf
  | .fin a => .fin (-a)

/-- IEEE-style addition: NaN propagates; opposite infinities give NaN. -/
def FP.add : FP → FP → FP
  | .nan, _ => .nan
  | _, .nan => .nan
  | .inf, .neginf => .nan
  | .neginf, .inf => .nan
  | .inf, _ => .inf
  | _, .inf => .inf
  | .neginf, _ => .neginf
  | _, .neginf => .neginf
  | .fin a, .fin b => .fin (a + b)

/-- IEEE-style multiplication: NaN propagates; zero times an infinity is
NaN; otherwise infinities carry the sign product. -/
def FP.mul : FP → FP → FP
  | .nan, _ => .nan
  | _, .nan => .nan
  | .inf, .inf => .inf
  | .inf, .neginf => .neginf
  | .neginf, .inf => .neginf
  | .neginf, .neginf => .inf
  | .inf, .fin b => if b = 0 then .nan else if 0 < b then .inf else .neginf
  | .fin a, .inf => if a = 0 then .nan else if 0 < a then .inf else .neginf
  | .neginf, .fin b => if b = 0 then .nan else if 0 < b then .neginf else .inf
  | .fin a, .neginf => if a = 0 then .nan else if 0 < a then .neginf else .inf
  | .fin a, .fin b => .fin (a * b)

/-- IEEE-style division, as exercised by the embedding (the only division in
the transform is by the constant 180). The finite/finite case uses integer
division, exact on the values the development evaluates (only `0 / 180`). -/
def FP.div : FP → FP → FP
  | .nan, _ => .nan
  | _, .nan => .nan
  | .inf, .inf => .nan
  | .inf, .neginf => .nan
  | .neginf, .inf => .nan
  | .neginf, .neginf => .nan
  | .inf, .fin b => if 0 ≤ b then .inf else .neginf
  | .neginf, .fin b => if 0 ≤ b then .neginf else .inf
  | .fin _, .inf => .fin 0
  | .fin _, .neginf => .fin 0
  | .fin a, .fin b =>
    if b = 0 then (if a = 0 then .nan else if 0 < a then .inf else .neginf)
    else .fin (a / b)

instance : Neg FP := ⟨FP.neg⟩

instance : Add FP := ⟨FP.add⟩

instance : Mul FP := ⟨FP.mul⟩

instance : Sub FP := ⟨fun a b => FP.add a (FP.neg b)⟩

instance : Div FP := ⟨FP.div⟩

instance : NatCast FP := ⟨fun n => .fin (n : ℤ)⟩

/-- The numeric operations over `FP` as exercised by the counterexample's
input (reference latitude 0 and asset rotation 0): `math.cos` and `math.sin`
are modelled at the only argument that path evaluates them on, `0.0`, where
IEEE doubles give exactly `cos(0.0) = 1.0` and `sin(0.0) = 0.0`; other
arguments (never reached) are mapped to NaN. `pi` enters the computation
only in products with `0.0`, whose result is `0.0` for every finite value,
so a finite placeholder stands in. `isFalsy` and `leZero` are the Python
float semantics: NaN and the infinities are truthy, and `x <= 0` is false
for NaN and `+inf` and true for `-inf`. -/
def fpOps : NumOps FP :=
  { pi := .fin 3
    cos := fun x => if x = .fin 0 then .fin 1 else .nan
    sin := fun x => if x = .fin 0 then .fin 0 else .nan
    isFalsy := fun x => x = .fin 0
    leZero := fun x =>
      match x with
      | .nan => false
      | .inf => false
      | .neginf => true
      | .fin z => z ≤ 0 }

/-- A project whose `pixels_per_meter` is `+inf`, with its reference asset
at geographic `(0, 0)` anchored to pixel `(0, 0)` and zero asset rotation. -/
def fpInfProject : Project FP :=
  { pixels_per_meter := .inf
    scale_calibrated := true
    coord_unit := "degrees"
    origin_x := .fin 0
    origin_y := .fin 0
    canvas_rotation := .fin 0
    asset_rotation := .fin 0
    ref_asset_id := "A1"
    ref_pixel_x := .fin 0
    ref_pixel_y := .fin 0
    assets := [{ asset_id := "A1", current_x := .fin 0, current_y := .fin 0 }] }

/-- The numeric operations over `ℚ` with the Python float predicates on
finite values: `not x` is true exactly for zero, `x <= 0` is the ordinary
comparison. `pi`, `cos` and `sin` are immaterial to the guard behaviour. -/
def ratOps : NumOps ℚ :=
  { pi := 314159 / 100000
    cos := fun _ => 1
    sin := fun _ => 0
    isFalsy := fun q => q = 0
    leZero := fun q => q ≤ 0 }


theorem parseOpt_err {v : Option RawValue} {n f m : String} (cur : ℚ)
    (h : numFieldErr v n = some (f, m)) : parseOpt v n cur = .error m := by
  cases v with
  | none => simp [numFieldErr] at h
  | some raw =>
    cases raw <;>
      simp only [numFieldErr, parse_finite_float, parseOpt, Option.some.injEq,
        Prod.mk.injEq] at h ⊢ <;>
      first
        | (obtain ⟨h1, h2⟩ := h; subst h2; rfl)
        | cases h

theorem parseOpt_ok {v : Option RawValue} {n : String} (cur : ℚ)
    (h : numFieldErr v n = none) :
    ∃ x, parseOpt v n cur = .ok x ∧ (v = none → x = cur) := by
  cases v with
  | none => exact ⟨cur, rfl, fun _ => rfl⟩
  | some raw =>
    cases raw with
    | num q => exact ⟨q, rfl, by simp⟩
    | notNum => simp [numFieldErr, parse_finite_float] at h
    | nan => simp [numFieldErr, parse_finite_float] at h
    | inf => simp [numFieldErr, parse_finite_float] at h
    | neginf => simp [numFieldErr, parse_finite_float] at h

theorem applyScale_ok_inv {r : CalibrationRequest} {p q : Project ℚ}
    (h : applyScale r p = .ok q) :
    q.origin_x = p.origin_x ∧ q.origin_y = p.origin_y
    ∧ q.canvas_rotation = p.canvas_rotation ∧ q.asset_rotation = p.asset_rotation
    ∧ q.ref_asset_id = p.ref_asset_id ∧ q.ref_pixel_x = p.ref_pixel_x
    ∧ q.ref_pixel_y = p.ref_pixel_y ∧ q.coord_unit = p.coord_unit
    ∧ q.assets = p.assets
    ∧ ((r.pixel_distance = none ∨ r.real_distance = none) →
        q.pixels_per_meter = p.pixels_per_meter ∧ q.scale_calibrated = p.scale_calibrated)
    ∧ (0 < p.pixels_per_meter → 0 < q.pixels_per_meter) := by
  unfold applyScale at h
  rcases hpd : r.pixel_distance with _ | vp <;> rcases hrd : r.real_distance with _ | vr <;>
    rw [hpd, hrd] at h
  · simp only [Except.ok.injEq] at h
    subst h
    exact ⟨rfl, rfl, rfl, rfl, rfl, rfl, rfl, rfl, rfl, fun _ => ⟨rfl, rfl⟩, id⟩
  · simp only [Except.ok.injEq] at h
    subst h
    exact ⟨rfl, rfl, rfl, rfl, rfl, rfl, rfl, rfl, rfl, fun _ => ⟨rfl, rfl⟩, id⟩
  · simp only [Except.ok.injEq] at h
    subst h
    exact ⟨rfl, rfl, rfl, rfl, rfl, rfl, rfl, rfl, rfl, fun _ => ⟨rfl, rfl⟩, id⟩
  · cases vp <;> simp [parse_finite_float] at h
    case num pd =>
      cases vr <;> simp [parse_finite_float] at h
      case num rd =>
        split_ifs at h with h1 h2
        simp only [Except.ok.injEq] at h
        subst h
        refine ⟨rfl, rfl, rfl, rfl, rfl, rfl, rfl, rfl, rfl, ?_, ?_⟩
        · rintro (h0 | h0) <;> simp [hpd, hrd] at h0
        · intro _
          exact div_pos (not_le.mp h2) (not_le.mp h1)

theorem applyScale_err {r : CalibrationRequest} {f m : String} (p : Project ℚ)
    (h : scaleErr r = some (f, m)) : applyScale r p = .error m := by
  rcases hpd : r.pixel_distance with _ | vp <;> rcases hrd : r.real_distance with _ | vr
  · simp [scaleErr, hpd, hrd] at h
  · simp [scaleErr, hpd, hrd] at h
  · simp [scaleErr, hpd, hrd] at h
  · cases vp <;> cases vr <;>
      simp only [scaleErr, applyScale, hpd, hrd, parse_finite_float, Option.some.injEq,
        Prod.mk.injEq] at h ⊢ <;>
      first
        | (obtain ⟨h1, h2⟩ := h; rw [h2])
        | (split_ifs at h ⊢ <;>
            first
              | (simp only [Option.some.injEq, Prod.mk.injEq] at h;
                 obtain ⟨h1, h2⟩ := h; rw [h2])
              | cases h)

theorem applyScale_ok_exists {r : CalibrationRequest} (p : Project ℚ)
    (h : scaleErr r = none) : ∃ q, applyScale r p = .ok q := by
  rcases hpd : r.pixel_distance with _ | vp <;> rcases hrd : r.real_distance with _ | vr
  · exact ⟨p, by simp [applyScale, hpd, hrd]⟩
  · exact ⟨p, by simp [applyScale, hpd, hrd]⟩
  · exact ⟨p, by simp [applyScale, hpd, hrd]⟩
  · cases vp <;> cases vr <;>
      simp only [scaleErr, applyScale, hpd, hrd, parse_finite_float] at h ⊢ <;>
      first
        | cases h
        | (split_ifs at h ⊢ <;>
            first
              | exact ⟨_, rfl⟩
              | cases h)

theorem applyOrigin_err1 {r : CalibrationRequest} {f m : String} (p : Project ℚ)
    (h : numFieldErr r.origin_x "origin_x" = some (f, m)) :
    applyOrigin r p = .error m := by
  unfold applyOrigin
  rw [parseOpt_err p.origin_x h]

theorem applyOrigin_err2 {r : CalibrationRequest} {f m : String} (p : Project ℚ)
    (hx : numFieldErr r.origin_x "origin_x" = none)
    (h : numFieldErr r.origin_y "origin_y" = some (f, m)) :
    applyOrigin r p = .error m := by
  obtain ⟨x, hxe, _⟩ := parseOpt_ok p.origin_x hx
  unfold applyOrigin
  rw [hxe, parseOpt_err p.origin_y h]

theorem applyOrigin_ok_inv {r : CalibrationRequest} {p q : Project ℚ}
    (h : applyOrigin r p = .ok q) :
    q.pixels_per_meter = p.pixels_per_meter ∧ q.scale_calibrated = p.scale_calibrated
    ∧ q.canvas_rotation = p.canvas_rotation ∧ q.asset_rotation = p.asset_rotation
    ∧ q.ref_asset_id = p.ref_asset_id ∧ q.ref_pixel_x = p.ref_pixel_x
    ∧ q.ref_pixel_y = p.ref_pixel_y ∧ q.coord_unit = p.coord_unit
    ∧ q.assets = p.assets
    ∧ (r.origin_x = none → q.origin_x = p.origin_x)
    ∧ (r.origin_y = none → q.origin_y = p.origin_y) := by
  unfold applyOrigin at h
  cases hxe : parseOpt r.origin_x "origin_x" p.origin_x with
  | error e => rw [hxe] at h; cases h
  | ok x =>
    rw [hxe] at h
    cases hye : parseOpt r.origin_y "origin_y" p.origin_y with
    | error e => rw [hye] at h; cases h
    | ok y =>
      rw [hye] at h
      simp only [Except.ok.injEq] at h
      subst h
      refine ⟨rfl, rfl, rfl, rfl, rfl, rfl, rfl, rfl, rfl, ?_, ?_⟩
      · intro h0
        rw [h0] at hxe
        cases hxe
        rfl
      · intro h0
        rw [h0] at hye
        cases hye
        rfl

theorem applyOrigin_ok_exists {r : CalibrationRequest} (p : Project ℚ)
    (hx : numFieldErr r.origin_x "origin_x" = none)
    (hy : numFieldErr r.origin_y "origin_y" = none) :
    ∃ q, applyOrigin r p = .ok q := by
  obtain ⟨x, hxe, _⟩ := parseOpt_ok p.origin_x hx
  obtain ⟨y, hye, _⟩ := parseOpt_ok p.origin_y hy
  exact ⟨_, by unfold applyOrigin; rw [hxe, hye]⟩

theorem applyCanvasRotation_err {r : CalibrationRequest} {f m : String} (p : Project ℚ)
    (h : numFieldErr r.canvas_rotation "canvas_rotation" = some (f, m)) :
    applyCanvasRotation r p = .error m := by
  unfold applyCanvasRotation
  rw [parseOpt_err p.canvas_rotation h]

theorem applyCanvasRotation_ok_inv {r : CalibrationRequest} {p q : Project ℚ}
    (h : applyCanvasRotation r p = .ok q) :
    q.pixels_per_meter = p.pixels_per_meter ∧ q.scale_calibrated = p.scale_calibrated
    ∧ q.origin_x = p.origin_x ∧ q.origin_y = p.origin_y
    ∧ q.asset_rotation = p.asset_rotation
    ∧ q.ref_asset_id = p.ref_asset_id ∧ q.ref_pixel_x = p.ref_pixel_x
    ∧ q.ref_pixel_y = p.ref_pixel_y ∧ q.coord_unit = p.coord_unit
    ∧ q.assets = p.assets
    ∧ (r.canvas_rotation = none → q.canvas_rotation = p.canvas_rotation) := by
  unfold applyCanvasRotation at h
  cases hce : parseOpt r.canvas_rotation "canvas_rotation" p.canvas_rotation with
  | error e => rw [hce] at h; cases h
  | ok c =>
    rw [hce] at h
    simp only [Except.ok.injEq] at h
    subst h
    refine ⟨rfl, rfl, rfl, rfl, rfl, rfl, rfl, rfl, rfl, rfl, ?_⟩
    intro h0
    rw [h0] at hce
    cases hce
    rfl

theorem applyCanvasRotation_ok_exists {r : CalibrationRequest} (p : Project ℚ)
    (hc : numFieldErr r.canvas_rotation "canvas_rotation" = none) :
    ∃ q, applyCanvasRotation r p = .ok q := by
  obtain ⟨c, hce, _⟩ := parseOpt_ok p.canvas_rotation hc
  exact ⟨_, by unfold applyCanvasRotation; rw [hce]⟩

theorem applyAssetRotation_err {r : CalibrationRequest} {f m : String} (p : Project ℚ)
    (h : numFieldErr r.asset_rotation "asset_rotation" = some (f, m)) :
    applyAssetRotation r p = .error m := by
  unfold applyAssetRotation
  rw [parseOpt_err p.asset_rotation h]

theorem applyAssetRotation_ok_inv {r : CalibrationRequest} {p q : Project ℚ}
    (h : applyAssetRotation r p = .ok q) :
    q.pixels_per_meter = p.pixels_per_meter ∧ q.scale_calibrated = p.scale_calibrated
    ∧ q.origin_x = p.origin_x ∧ q.origin_y = p.origin_y
    ∧ q.canvas_rotation = p.canvas_rotation
    ∧ q.ref_asset_id = p.ref_asset_id ∧ q.ref_pixel_x = p.ref_pixel_x
    ∧ q.ref_pixel_y = p.ref_pixel_y ∧ q.coord_unit = p.coord_unit
    ∧ q.assets = p.assets
    ∧ (r.asset_rotation = none → q.asset_rotation = p.asset_rotation) := by
  unfold applyAssetRotation at h
  cases hae : parseOpt r.asset_rotation "asset_rotation" p.asset_rotation with
  | error e => rw [hae] at h; cases h
  | ok a =>
    rw [hae] at h
    simp only [Except.ok.injEq] at h
    subst h
    refine ⟨rfl, rfl, rfl, rfl, rfl, rfl, rfl, rfl, rfl, rfl, ?_⟩
    intro h0
    rw [h0] at hae
    cases hae
    rfl

theorem applyAssetRotation_ok_exists {r : CalibrationRequest} (p : Project ℚ)
    (ha : numFieldErr r.asset_rotation "asset_rotation" = none) :
    ∃ q, applyAssetRotation r p = .ok q := by
  obtain ⟨a, hae, _⟩ := parseOpt_ok p.asset_rotation ha
  exact ⟨_, by unfold applyAssetRotation; rw [hae]⟩

theorem applyRefAssetId_inv (r : CalibrationRequest) (p : Project ℚ) :
    (applyRefAssetId r p).pixels_per_meter = p.pixels_per_meter
    ∧ (applyRefAssetId r p).scale_calibrated = p.scale_calibrated
    ∧ (applyRefAssetId r p).origin_x = p.origin_x
    ∧ (applyRefAssetId r p).origin_y = p.origin_y
    ∧ (applyRefAssetId r p).canvas_rotation = p.canvas_rotation
    ∧ (applyRefAssetId r p).asset_rotation = p.asset_rotation
    ∧ (applyRefAssetId r p).ref_pixel_x = p.ref_pixel_x
    ∧ (applyRefAssetId r p).ref_pixel_y = p.ref_pixel_y
    ∧ (applyRefAssetId r p).coord_unit = p.coord_unit
    ∧ (applyRefAssetId r p).assets = p.assets
    ∧ (r.ref_asset_id = none → (applyRefAssetId r p).ref_asset_id = p.ref_asset_id) := by
  unfold applyRefAssetId
  cases hid : r.ref_asset_id with
  | none => exact ⟨rfl, rfl, rfl, rfl, rfl, rfl, rfl, rfl, rfl, rfl, fun _ => rfl⟩
  | some s =>
    refine ⟨rfl, rfl, rfl, rfl, rfl, rfl, rfl, rfl, rfl, rfl, ?_⟩
    intro h0
    cases h0

theorem applyRefPixel_err1 {r : CalibrationRequest} {f m : String} (p : Project ℚ)
    (h : numFieldErr r.ref_pixel_x "ref_pixel_x" = some (f, m)) :
    applyRefPixel r p = .error m := by
  unfold applyRefPixel
  rw [parseOpt_err p.ref_pixel_x h]

theorem applyRefPixel_err2 {r : CalibrationRequest} {f m : String} (p : Project ℚ)
    (hx : numFieldErr r.ref_pixel_x "ref_pixel_x" = none)
    (h : numFieldErr r.ref_pixel_y "ref_pixel_y" = some (f, m)) :
    applyRefPixel r p = .error m := by
  obtain ⟨x, hxe, _⟩ := parseOpt_ok p.ref_pixel_x hx
  unfold applyRefPixel
  rw [hxe, parseOpt_err p.ref_pixel_y h]

theorem applyRefPixel_ok_inv {r : CalibrationRequest} {p q : Project ℚ}
    (h : applyRefPixel r p = .ok q) :
    q.pixels_per_meter = p.pixels_per_meter ∧ q.scale_calibrated = p.scale_calibrated
    ∧ q.origin_x = p.origin_x ∧ q.origin_y = p.origin_y
    ∧ q.canvas_rotation = p.canvas_rotation ∧ q.asset_rotation = p.asset_rotation
    ∧ q.ref_asset_id = p.ref_asset_id ∧ q.coord_unit = p.coord_unit
    ∧ q.assets = p.assets
    ∧ (r.ref_pixel_x = none → q.ref_pixel_x = p.ref_pixel_x)
    ∧ (r.ref_pixel_y = none → q.ref_pixel_y = p.ref_pixel_y) := by
  unfold applyRefPixel at h
  cases hxe : parseOpt r.ref_pixel_x "ref_pixel_x" p.ref_pixel_x with
  | error e => rw [hxe] at h; cases h
  | ok x =>
    rw [hxe] at h
    cases hye : parseOpt r.ref_pixel_y "ref_pixel_y" p.ref_pixel_y with
    | error e => rw [hye] at h; cases h
    | ok y =>
      rw [hye] at h
      simp only [Except.ok.injEq] at h
      subst h
      refine ⟨rfl, rfl, rfl, rfl, rfl, rfl, rfl, rfl, rfl, ?_, ?_⟩
      · intro h0
        rw [h0] at hxe
        cases hxe
        rfl
      · intro h0
        rw [h0] at hye
        cases hye
        rfl

theorem applyRefPixel_ok_exists {r : CalibrationRequest} (p : Project ℚ)
    (hx : numFieldErr r.ref_pixel_x "ref_pixel_x" = none)
    (hy : numFieldErr r.ref_pixel_y "ref_pixel_y" = none) :
    ∃ q, applyRefPixel r p = .ok q := by
  obtain ⟨x, hxe, _⟩ := parseOpt_ok p.ref_pixel_x hx
  obtain ⟨y, hye, _⟩ := parseOpt_ok p.ref_pixel_y hy
  exact ⟨_, by unfold applyRefPixel; rw [hxe, hye]⟩

theorem applyCoordUnit_err {r : CalibrationRequest} {f m : String} (p : Project ℚ)
    (h : coordUnitErr r = some (f, m)) : applyCoordUnit r p = .error m := by
  cases hu : r.coord_unit with
  | none => simp [coordUnitErr, hu] at h
  | some u =>
    simp only [coordUnitErr, hu] at h
    simp only [applyCoordUnit, hu]
    split_ifs at h ⊢ <;> simp_all

theorem applyCoordUnit_ok_inv {r : CalibrationRequest} {p q : Project ℚ}
    (h : applyCoordUnit r p = .ok q) :
    q.pixels_per_meter = p.pixels_per_meter ∧ q.scale_calibrated = p.scale_calibrated
    ∧ q.origin_x = p.origin_x ∧ q.origin_y = p.origin_y
    ∧ q.canvas_rotation = p.canvas_rotation ∧ q.asset_rotation = p.asset_rotation
    ∧ q.ref_asset_id = p.ref_asset_id ∧ q.ref_pixel_x = p.ref_pixel_x
    ∧ q.ref_pixel_y = p.ref_pixel_y
    ∧ q.assets = p.assets
    ∧ (r.coord_unit = none → q.coord_unit = p.coord_unit) := by
  cases hu : r.coord_unit with
  | none =>
    simp only [applyCoordUnit, hu, Except.ok.injEq] at h
    subst h
    exact ⟨rfl, rfl, rfl, rfl, rfl, rfl, rfl, rfl, rfl, rfl, fun _ => rfl⟩
  | some u =>
    simp only [applyCoordUnit, hu] at h
    split_ifs at h
    simp only [Except.ok.injEq] at h
    subst h
    exact ⟨rfl, rfl, rfl, rfl, rfl, rfl, rfl, rfl, rfl, rfl, fun h0 => by cases h0⟩

theorem applyCoordUnit_ok_exists {r : CalibrationRequest} (p : Project ℚ)
    (hc : coordUnitErr r = none) : ∃ q, applyCoordUnit r p = .ok q := by
  cases hu : r.coord_unit with
  | none => exact ⟨p, by simp [applyCoordUnit, hu]⟩
  | some u =>
    simp only [coordUnitErr, hu] at hc
    simp only [applyCoordUnit, hu]
    split_ifs at hc ⊢ <;> simp_all

theorem calibrate_err_of_first {db : Project ℚ} {r : CalibrationRequest} {fld msg : String}
    (h : firstValidationError r = some (fld, msg)) :
    calibrate_project db r = .error msg := by
  unfold firstValidationError at h
  unfold calibrate_project
  cases hs : scaleErr r with
  | some fm =>
    simp only [hs, Option.some.injEq] at h
    subst h
    simp only [applyScale_err db hs]
  | none =>
    simp only [hs] at h
    obtain ⟨p1, hp1⟩ := applyScale_ok_exists db hs
    simp only [hp1]
    cases hox : numFieldErr r.origin_x "origin_x" with
    | some fm =>
      simp only [hox, Option.some.injEq] at h
      subst h
      simp only [applyOrigin_err1 p1 hox]
    | none =>
      simp only [hox] at h
      cases hoy : numFieldErr r.origin_y "origin_y" with
      | some fm =>
        simp only [hoy, Option.some.injEq] at h
        subst h
        simp only [applyOrigin_err2 p1 hox hoy]
      | none =>
        simp only [hoy] at h
        obtain ⟨p2, hp2⟩ := applyOrigin_ok_exists p1 hox hoy
        simp only [hp2]
        cases hcr : numFieldErr r.canvas_rotation "canvas_rotation" with
        | some fm =>
          simp only [hcr, Option.some.injEq] at h
          subst h
          simp only [applyCanvasRotation_err p2 hcr]
        | none =>
          simp only [hcr] at h
          obtain ⟨p3, hp3⟩ := applyCanvasRotation_ok_exists p2 hcr
          simp only [hp3]
          cases har : numFieldErr r.asset_rotation "asset_rotation" with
          | some fm =>
            simp only [har, Option.some.injEq] at h
            subst h
            simp only [applyAssetRotation_err p3 har]
          | none =>
            simp only [har] at h
            obtain ⟨p4, hp4⟩ := applyAssetRotation_ok_exists p3 har
            simp only [hp4]
            cases hrx : numFieldErr r.ref_pixel_x "ref_pixel_x" with
            | some fm =>
              simp only [hrx, Option.some.injEq] at h
              subst h
              simp only [applyRefPixel_err1 (applyRefAssetId r p4) hrx]
            | none =>
              simp only [hrx] at h
              cases hry : numFieldErr r.ref_pixel_y "ref_pixel_y" with
              | some fm =>
                simp only [hry, Option.some.injEq] at h
                subst h
                simp only [applyRefPixel_err2 (applyRefAssetId r p4) hrx hry]
              | none =>
                simp only [hry] at h
                obtain ⟨p6, hp6⟩ := applyRefPixel_ok_exists (applyRefAssetId r p4) hrx hry
                simp only [hp6]
                exact applyCoordUnit_err p6 h

theorem calibrate_ok_exists {db : Project ℚ} {r : CalibrationRequest}
    (h : firstValidationError r = none) :
    ∃ p, calibrate_project db r = .ok p := by
  unfold firstValidationError at h
  cases hs : scaleErr r with
  | some fm => simp [hs] at h
  | none =>
    simp only [hs] at h
    cases hox : numFieldErr r.origin_x "origin_x" with
    | some fm => simp [hox] at h
    | none =>
      simp only [hox] at h
      cases hoy : numFieldErr r.origin_y "origin_y" with
      | some fm => simp [hoy] at h
      | none =>
        simp only [hoy] at h
        cases hcr : numFieldErr r.canvas_rotation "canvas_rotation" with
        | some fm => simp [hcr] at h
        | none =>
          simp only [hcr] at h
          cases har : numFieldErr r.asset_rotation "asset_rotation" with
          | some fm => simp [har] at h
          | none =>
            simp only [har] at h
            cases hrx : numFieldErr r.ref_pixel_x "ref_pixel_x" with
            | some fm => simp [hrx] at h
            | none =>
              simp only [hrx] at h
              cases hry : numFieldErr r.ref_pixel_y "ref_pixel_y" with
              | some fm => simp [hry] at h
              | none =>
                simp only [hry] at h
                obtain ⟨p1, hp1⟩ := applyScale_ok_exists db hs
                obtain ⟨p2, hp2⟩ := applyOrigin_ok_exists p1 hox hoy
                obtain ⟨p3, hp3⟩ := applyCanvasRotation_ok_exists p2 hcr
                obtain ⟨p4, hp4⟩ := applyAssetRotation_ok_exists p3 har
                obtain ⟨p6, hp6⟩ := applyRefPixel_ok_exists (applyRefAssetId r p4) hrx hry
                obtain ⟨p7, hp7⟩ := applyCoordUnit_ok_exists p6 h
                exact ⟨p7, by
                  unfold calibrate_project
                  simp only [hp1, hp2, hp3, hp4, hp6, hp7]⟩

theorem calibrate_ok_inv {db p' : Project ℚ} {r : CalibrationRequest}
    (h : calibrate_project db r = .ok p') :
    ((r.pixel_distance = none ∨ r.real_distance = none) →
        p'.pixels_per_meter = db.pixels_per_meter
        ∧ p'.scale_calibrated = db.scale_calibrated)
    ∧ (r.origin_x = none → p'.origin_x = db.origin_x)
    ∧ (r.origin_y = none → p'.origin_y = db.origin_y)
    ∧ (r.canvas_rotation = none → p'.canvas_rotation = db.canvas_rotation)
    ∧ (r.asset_rotation = none → p'.asset_rotation = db.asset_rotation)
    ∧ (r.ref_asset_id = none → p'.ref_asset_id = db.ref_asset_id)
    ∧ (r.ref_pixel_x = none → p'.ref_pixel_x = db.ref_pixel_x)
    ∧ (r.ref_pixel_y = none → p'.ref_pixel_y = db.ref_pixel_y)
    ∧ (r.coord_unit = none → p'.coord_unit = db.coord_unit)
    ∧ (0 < db.pixels_per_meter → 0 < p'.pixels_per_meter) := by
  unfold calibrate_project at h
  cases hp1 : applyScale r db with
  | error e => simp only [hp1] at h; cases h
  | ok p1 =>
  simp only [hp1] at h
  cases hp2 : applyOrigin r p1 with
  | error e => simp only [hp2] at h; cases h
  | ok p2 =>
  simp only [hp2] at h
  cases hp3 : applyCanvasRotation r p2 with
  | error e => simp only [hp3] at h; cases h
  | ok p3 =>
  simp only [hp3] at h
  cases hp4 : applyAssetRotation r p3 with
  | error e => simp only [hp4] at h; cases h
  | ok p4 =>
  simp only [hp4] at h
  cases hp6 : applyRefPixel r (applyRefAssetId r p4) with
  | error e => simp only [hp6] at h; cases h
  | ok p6 =>
  simp only [hp6] at h
  obtain ⟨Sox, Soy, Scr, Sar, Sraid, Srpx, Srpy, Scu, _, SAbs, SPos⟩ := applyScale_ok_inv hp1
  obtain ⟨Oppm, Osc, Ocr, Oar, Oraid, Orpx, Orpy, Ocu, _, OxImp, OyImp⟩ :=
    applyOrigin_ok_inv hp2
  obtain ⟨Cppm, Csc, Cox, Coy, Car, Craid, Crpx, Crpy, Ccu, _, CrImp⟩ :=
    applyCanvasRotation_ok_inv hp3
  obtain ⟨Appm, Asc, Aox, Aoy, Acr, Araid, Arpx, Arpy, Acu, _, ArImp⟩ :=
    applyAssetRotation_ok_inv hp4
  obtain ⟨Rppm, Rsc, Rox, Roy, Rcr, Rar, Rrpx, Rrpy, Rcu, _, RaidImp⟩ :=
    applyRefAssetId_inv r p4
  obtain ⟨Pppm, Psc, Pox, Poy, Pcr, Par, Praid, Pcu, _, PxImp, PyImp⟩ :=
    applyRefPixel_ok_inv hp6
  obtain ⟨Uppm, Usc, Uox, Uoy, Ucr, Uar, Uraid, Urpx, Urpy, _, CuImp⟩ :=
    applyCoordUnit_ok_inv h
  refine ⟨?_, ?_, ?_, ?_, ?_, ?_, ?_, ?_, ?_, ?_⟩
  · intro habs
    exact ⟨by rw [Uppm, Pppm, Rppm, Appm, Cppm, Oppm, (SAbs habs).1],
      by rw [Usc, Psc, Rsc, Asc, Csc, Osc, (SAbs habs).2]⟩
  · intro h0
    rw [Uox, Pox, Rox, Aox, Cox, OxImp h0, Sox]
  · intro h0
    rw [Uoy, Poy, Roy, Aoy, Coy, OyImp h0, Soy]
  · intro h0
    rw [Ucr, Pcr, Rcr, Acr, CrImp h0, Ocr, Scr]
  · intro h0
    rw [Uar, Par, Rar, ArImp h0, Car, Oar, Sar]
  · intro h0
    rw [Uraid, Praid, RaidImp h0, Araid, Craid, Oraid, Sraid]
  · intro h0
    rw [Urpx, PxImp h0, Rrpx, Arpx, Crpx, Orpx, Srpx]
  · intro h0
    rw [Urpy, PyImp h0, Rrpy, Arpy, Crpy, Orpy, Srpy]
  · intro h0
    rw [CuImp h0, Pcu, Rcu, Acu, Ccu, Ocu, Scu]
  · intro h0
    rw [Uppm, Pppm, Rppm, Appm, Cppm, Oppm]
    exact SPos h0

theorem numFieldErr_msg_mem {v : Option RawValue} {n f m : String}
    (h : numFieldErr v n = some (f, m)) : f = n ∧ m ∈ fieldMessages n := by
  cases v with
  | none => simp [numFieldErr] at h
  | some raw =>
    cases raw <;>
      simp only [numFieldErr, parse_finite_float, Option.some.injEq, Prod.mk.injEq] at h <;>
      first
        | (obtain ⟨h1, h2⟩ := h; subst h1; subst h2;
           exact ⟨rfl, by simp [fieldMessages]⟩)
        | cases h

theorem scaleErr_msg_mem {r : CalibrationRequest} {f m : String}
    (h : scaleErr r = some (f, m)) : m ∈ fieldMessages f := by
  rcases hpd : r.pixel_distance with _ | vp <;> rcases hrd : r.real_distance with _ | vr
  · simp [scaleErr, hpd, hrd] at h
  · simp [scaleErr, hpd, hrd] at h
  · simp [scaleErr, hpd, hrd] at h
  · cases vp <;> cases vr <;>
      simp only [scaleErr, hpd, hrd, parse_finite_float, Option.some.injEq,
        Prod.mk.injEq] at h <;>
      first
        | (obtain ⟨h1, h2⟩ := h; subst h1; subst h2; simp [fieldMessages])
        | (split_ifs at h <;>
            first
              | (simp only [Option.some.injEq, Prod.mk.injEq] at h;
                 obtain ⟨h1, h2⟩ := h; subst h1; subst h2; simp [fieldMessages])
              | cases h)

theorem coordUnitErr_msg_mem {r : CalibrationRequest} {f m : String}
    (h : coordUnitErr r = some (f, m)) : m ∈ fieldMessages f := by
  cases hu : r.coord_unit with
  | none => simp [coordUnitErr, hu] at h
  | some u =>
    simp only [coordUnitErr, hu] at h
    split_ifs at h
    simp only [Option.some.injEq, Prod.mk.injEq] at h
    obtain ⟨h1, h2⟩ := h
    subst h1
    subst h2
    simp [fieldMessages]

theorem firstValidationError_msg_mem {r : CalibrationRequest} {fld msg : String}
    (h : firstValidationError r = some (fld, msg)) : msg ∈ fieldMessages fld := by
  unfold firstValidationError at h
  cases hs : scaleErr r with
  | some fm =>
    simp only [hs, Option.some.injEq] at h
    subst h
    exact scaleErr_msg_mem hs
  | none =>
    simp only [hs] at h
    cases hox : numFieldErr r.origin_x "origin_x" with
    | some fm =>
      simp only [hox, Option.some.injEq] at h
      subst h
      obtain ⟨h1, h2⟩ := numFieldErr_msg_mem hox
      rw [h1]
      exact h2
    | none =>
      simp only [hox] at h
      cases hoy : numFieldErr r.origin_y "origin_y" with
      | some fm =>
        simp only [hoy, Option.some.injEq] at h
        subst h
        obtain ⟨h1, h2⟩ := numFieldErr_msg_mem hoy
        rw [h1]
        exact h2
      | none =>
        simp only [hoy] at h
        cases hcr : numFieldErr r.canvas_rotation "canvas_rotation" with
        | some fm =>
          simp only [hcr, Option.some.injEq] at h
          subst h
          obtain ⟨h1, h2⟩ := numFieldErr_msg_mem hcr
          rw [h1]
          exact h2
        | none =>
          simp only [hcr] at h
          cases har : numFieldErr r.asset_rotation "asset_rotation" with
          | some fm =>
            simp only [har, Option.some.injEq] at h
            subst h
            obtain ⟨h1, h2⟩ := numFieldErr_msg_mem har
            rw [h1]
            exact h2
          | none =>
            simp only [har] at h
            cases hrx : numFieldErr r.ref_pixel_x "ref_pixel_x" with
            | some fm =>
              simp only [hrx, Option.some.injEq] at h
              subst h
              obtain ⟨h1, h2⟩ := numFieldErr_msg_mem hrx
              rw [h1]
              exact h2
            | none =>
              simp only [hrx] at h
              cases hry : numFieldErr r.ref_pixel_y "ref_pixel_y" with
              | some fm =>
                simp only [hry, Option.some.injEq] at h
                subst h
                obtain ⟨h1, h2⟩ := numFieldErr_msg_mem hry
                rw [h1]
                exact h2
              | none =>
                simp only [hry] at h
                exact coordUnitErr_msg_mem h

end DocuWeaver

namespace DocuWeaver

/-- C1: for every input point, reference point, reference pixel, scale and
rotation (over any numeric carrier and any interpretation of `pi`/`cos`/
`sin`, in particular the real one), the pixel coordinate computed by the
code's `transform_ring` loop body equals the composition of the three steps
specified in the spec: equirectangular metric offset, rotation matrix,
scale-and-translate. -/
theorem transform_point_eq_spec_composition
    {K : Type} [Add K] [Mul K] [Sub K] [Neg K] [Div K] [NatCast K]
    (ops : NumOps K)
    (lon lat ref_lon ref_lat ref_pixel_x ref_pixel_y ppm asset_rotation_deg : K) :
    transform_point ops ref_lat ref_lon ref_pixel_x ref_pixel_y ppm asset_rotation_deg (lon, lat)
      = spec_projected_pixel ops lon lat ref_lon ref_lat ref_pixel_x ref_pixel_y ppm
          asset_rotation_deg := rfl

/-- C6: round-trip anchor property — projecting the reference geographic
point itself yields exactly the reference pixel pair, for every reference,
scale, rotation and every interpretation of the trigonometric functions
(the offset is exactly zero, so the rotation and scale contribute nothing). -/
theorem transform_point_ref_point_roundtrip
    {K : Type} [Field K] (ops : NumOps K)
    (ref_lat ref_lon ref_pixel_x ref_pixel_y ppm asset_rotation_deg : K) :
    transform_point ops ref_lat ref_lon ref_pixel_x ref_pixel_y ppm asset_rotation_deg
      (ref_lon, ref_lat) = (ref_pixel_x, ref_pixel_y) := by
  simp [transform_point]

/-- The feature loop is the filter of Polygon/MultiPolygon-kind features
followed by the pointwise projection. -/
theorem transformFeaturesLoop_eq_filter_map
    {K : Type} [Add K] [Mul K] [Sub K] [Neg K] [Div K] [NatCast K]
    (ops : NumOps K) (ref_lat ref_lon ref_pixel_x ref_pixel_y ppm asset_rotation_deg : K)
    (features : List (Feature K)) :
    transformFeaturesLoop ops ref_lat ref_lon ref_pixel_x ref_pixel_y ppm asset_rotation_deg
        features
      = (features.filter (fun f => isPolyKind f.geometry)).map
          (projectedFeature ops ref_lat ref_lon ref_pixel_x ref_pixel_y ppm
            asset_rotation_deg) := by
  induction features with
  | nil => rfl
  | cons f rest ih =>
    cases hg : f.geometry with
    | none =>
        simp [transformFeaturesLoop, hg, isPolyKind, List.filter, ih]
    | some g =>
        cases g with
        | polygon rings =>
            simp [transformFeaturesLoop, hg, isPolyKind, List.filter, ih,
              projectedFeature]
        | multiPolygon polys =>
            simp [transformFeaturesLoop, hg, isPolyKind, List.filter, ih,
              projectedFeature]
        | other kind coords =>
            simp [transformFeaturesLoop, hg, isPolyKind, List.filter, ih]

/-- C8: with a reference asset present and a valid scale, the projection of a
feature collection is exactly the Polygon/MultiPolygon features projected in
order; every feature of any other geometry kind (or with no geometry) is
skipped without any error — the operation still succeeds, with the output
possibly shorter than the input. -/
theorem transform_cadastre_filters_polygon_kinds
    {K : Type} [Add K] [Mul K] [Sub K] [Neg K] [Div K] [NatCast K]
    (ops : NumOps K) (project : Project K) (features : List (Feature K)) (a : Asset K)
    (href : findRefAsset project = some a)
    (hppm : (ops.isFalsy project.pixels_per_meter || ops.leZero project.pixels_per_meter)
      = false) :
    transform_cadastre_to_project_coords ops (some features) project
      = (features.filter (fun f => isPolyKind f.geometry)).map
          (projectedFeature ops a.current_y a.current_x project.ref_pixel_x
            project.ref_pixel_y project.pixels_per_meter project.asset_rotation) := by
  simp only [transform_cadastre_to_project_coords, href, hppm, Bool.false_eq_true,
    if_false]
  exact transformFeaturesLoop_eq_filter_map ops _ _ _ _ _ _ features

/-- C7: projecting a Polygon or MultiPolygon geometry is a structural
pass-through: the output geometry has the same kind, the same number of
polygons, rings (outer first, holes following) and points per ring in the
same order — only the coordinate values change — and the feature's
properties are carried over unmodified. -/
theorem transform_geometry_shape_and_properties_preserved
    {K : Type} [Add K] [Mul K] [Sub K] [Neg K] [Div K] [NatCast K]
    (ops : NumOps K) (ref_lat ref_lon ref_pixel_x ref_pixel_y ppm asset_rotation_deg : K)
    (g : Geom K) (props : List (String × String))
    (h : isPolyKind (some g) = true) :
    geomShape (transform_geometry ops ref_lat ref_lon ref_pixel_x ref_pixel_y ppm
        asset_rotation_deg g) = geomShape g
    ∧ (projectedFeature ops ref_lat ref_lon ref_pixel_x ref_pixel_y ppm asset_rotation_deg
        { geometry := some g, properties := props }).properties = props := by
  refine ⟨?_, rfl⟩
  cases g with
  | polygon rings =>
      simp [transform_geometry, geomShape, transform_ring, List.map_map, Function.comp]
  | multiPolygon polys =>
      simp [transform_geometry, geomShape, transform_ring, List.map_map, Function.comp]
  | other kind coords => rfl

/-- C10: with no reference asset configured — empty `ref_asset_id`, or no
asset of the project carrying that id — projecting any feature collection
returns the empty list, with no error raised. -/
theorem transform_cadastre_no_ref_asset_empty
    {K : Type} [Add K] [Mul K] [Sub K] [Neg K] [Div K] [NatCast K]
    (ops : NumOps K) (project : Project K) (geojson : Option (List (Feature K)))
    (h : project.ref_asset_id = ""
      ∨ project.assets.find? (fun a => a.asset_id = project.ref_asset_id) = none) :
    transform_cadastre_to_project_coords ops geojson project = [] := by
  have href : findRefAsset project = none := by
    cases h with
    | inl h0 => simp [findRefAsset, h0]
    | inr h0 => simp [findRefAsset, h0]
  cases geojson with
  | none => rfl
  | some features => simp [transform_cadastre_to_project_coords, href]

/-- Witness for C8 at the concrete mixed collection: the Point feature and
the geometry-less feature are dropped; the Polygon and MultiPolygon features
are projected in order. -/
theorem transform_cadastre_filters_polygon_kinds_witness :
    transform_cadastre_to_project_coords intTestOps (some testFeatures) testProject
      = (testFeatures.filter (fun f => isPolyKind f.geometry)).map
          (projectedFeature intTestOps (-17) 145 500 300 10 0) :=
  transform_cadastre_filters_polygon_kinds intTestOps testProject testFeatures
    { asset_id := "A1", current_x := 145, current_y := -17 }
    (by decide) (by decide)

/-- Witness for C7 at a concrete Polygon with a hole: both rings survive with
their point counts and order, and the properties are untouched. -/
theorem transform_geometry_shape_preserved_witness :
    geomShape (transform_geometry intTestOps (-17) 145 500 300 10 0
        (Geom.polygon [[(145, -17), (146, -17), (145, -18)], [(145, -17), (146, -18)]]))
      = geomShape (K := ℤ)
          (Geom.polygon [[(145, -17), (146, -17), (145, -18)], [(145, -17), (146, -18)]])
    ∧ (projectedFeature intTestOps (-17) 145 500 300 10 0
        { geometry := some (Geom.polygon
            [[(145, -17), (146, -17), (145, -18)], [(145, -17), (146, -18)]])
          properties := [("LOT", "7")] }).properties = [("LOT", "7")] :=
  transform_geometry_shape_and_properties_preserved intTestOps
    (-17) 145 500 300 10 0 _ [("LOT", "7")] (by decide)

/-- Witness for C10 at a concrete project whose `ref_asset_id` names no
existing asset: the projection of a nonempty collection is empty. -/
theorem transform_cadastre_no_ref_asset_empty_witness :
    transform_cadastre_to_project_coords intTestOps (some testFeatures)
      { testProject with ref_asset_id := "MISSING" } = [] :=
  transform_cadastre_no_ref_asset_empty intTestOps
    { testProject with ref_asset_id := "MISSING" } (some testFeatures)
    (Or.inr (by decide))

end DocuWeaver

namespace DocuWeaver

/-- C2: scale calibration — for all finite positive `pixel_distance` and
`real_distance` the endpoint succeeds and stores exactly
`pixel_distance / real_distance` as `pixels_per_meter`, marking the state as
explicitly calibrated; for any supplied pair in which either value is
unparseable, non-finite, or non-positive, the request fails with a
field-specific message naming the offending distance field. -/
theorem calibrate_scale_exact :
    (∀ (db : Project ℚ) (pd rd : ℚ), 0 < pd → 0 < rd →
      calibrate_project db (scaleOnlyRequest (.num pd) (.num rd))
        = .ok { db with pixels_per_meter := pd / rd, scale_calibrated := true })
    ∧ (∀ (db : Project ℚ) (vp vr : RawValue),
        invalidDistance vp ∨ invalidDistance vr →
        ∃ msg, calibrate_project db (scaleOnlyRequest vp vr) = .error msg
          ∧ (msg ∈ fieldMessages "pixel_distance" ∨ msg ∈ fieldMessages "real_distance")) := by
  constructor
  · intro db pd rd hpd hrd
    simp [calibrate_project, applyScale, scaleOnlyRequest, parse_finite_float,
      applyOrigin, applyCanvasRotation, applyAssetRotation, applyRefAssetId,
      applyRefPixel, applyCoordUnit, parseOpt, not_le.mpr hpd, not_le.mpr hrd]
  · intro db vp vr hinv
    have hscale : ∃ fld msg,
        scaleErr (scaleOnlyRequest vp vr) = some (fld, msg)
        ∧ (msg ∈ fieldMessages "pixel_distance" ∨ msg ∈ fieldMessages "real_distance") := by
      cases vp with
      | notNum =>
        exact ⟨"pixel_distance", "pixel_distance" ++ " must be a valid number", rfl,
          Or.inl (by simp [fieldMessages])⟩
      | nan =>
        exact ⟨"pixel_distance", "pixel_distance" ++ " must be a finite number", rfl,
          Or.inl (by simp [fieldMessages])⟩
      | inf =>
        exact ⟨"pixel_distance", "pixel_distance" ++ " must be a finite number", rfl,
          Or.inl (by simp [fieldMessages])⟩
      | neginf =>
        exact ⟨"pixel_distance", "pixel_distance" ++ " must be a finite number", rfl,
          Or.inl (by simp [fieldMessages])⟩
      | num pd =>
        cases vr with
        | notNum =>
          exact ⟨"real_distance", "real_distance" ++ " must be a valid number", rfl,
            Or.inr (by simp [fieldMessages])⟩
        | nan =>
          exact ⟨"real_distance", "real_distance" ++ " must be a finite number", rfl,
            Or.inr (by simp [fieldMessages])⟩
        | inf =>
          exact ⟨"real_distance", "real_distance" ++ " must be a finite number", rfl,
            Or.inr (by simp [fieldMessages])⟩
        | neginf =>
          exact ⟨"real_distance", "real_distance" ++ " must be a finite number", rfl,
            Or.inr (by simp [fieldMessages])⟩
        | num rd =>
          simp only [invalidDistance] at hinv
          rcases le_or_lt rd 0 with hrd | hrd
          · refine ⟨"real_distance", "real_distance must be greater than 0", ?_,
              Or.inr (by simp [fieldMessages])⟩
            simp [scaleErr, scaleOnlyRequest, parse_finite_float, if_pos hrd]
          · have hpd0 : pd ≤ 0 := hinv.resolve_right (not_le.mpr hrd)
            refine ⟨"pixel_distance", "pixel_distance must be greater than 0", ?_,
              Or.inl (by simp [fieldMessages])⟩
            simp [scaleErr, scaleOnlyRequest, parse_finite_float, not_le.mpr hrd,
              if_pos hpd0]
    obtain ⟨fld, msg, hse, hmem⟩ := hscale
    have hfirst : firstValidationError (scaleOnlyRequest vp vr) = some (fld, msg) := by
      unfold firstValidationError
      simp only [hse]
    exact ⟨msg, calibrate_err_of_first hfirst, hmem⟩

/-- Witness for C2: scenario A (`calibrate_scale(200, 2)` stores exactly
`200 / 2 = 100` and sets the calibrated flag) and scenario D
(`calibrate_scale(0, 5)` fails naming one of the distance fields). -/
theorem calibrate_scale_exact_witness :
    calibrate_project defaultProject (scaleOnlyRequest (.num 200) (.num 2))
      = .ok { defaultProject with pixels_per_meter := (200 : ℚ) / 2, scale_calibrated := true }
    ∧ ∃ msg, calibrate_project defaultProject (scaleOnlyRequest (.num 0) (.num 5)) = .error msg
        ∧ (msg ∈ fieldMessages "pixel_distance" ∨ msg ∈ fieldMessages "real_distance") :=
  ⟨calibrate_scale_exact.1 defaultProject 200 2 (by norm_num) (by norm_num),
   calibrate_scale_exact.2 defaultProject (.num 0) (.num 5)
     (Or.inl (by simp [invalidDistance]))⟩

/-- C5: the batch calibration update is atomic with respect to validation —
whenever some supplied field is invalid, the whole request fails with the
field-specific message of the first invalid field (in validation order), the
message names that field, and the stored project row is left exactly as it
was; when every supplied field is valid, the update commits. -/
theorem calibrate_project_validation_atomic (db : Project ℚ) (r : CalibrationRequest) :
    (∀ fld msg, firstValidationError r = some (fld, msg) →
        calibrate_project db r = .error msg
        ∧ msg ∈ fieldMessages fld
        ∧ storedAfterCalibrate db r = db)
    ∧ (firstValidationError r = none → ∃ p, calibrate_project db r = .ok p) := by
  constructor
  · intro fld msg h
    have he : calibrate_project db r = .error msg := calibrate_err_of_first h
    refine ⟨he, firstValidationError_msg_mem h, ?_⟩
    unfold storedAfterCalibrate
    rw [he]
  · intro h
    exact calibrate_ok_exists h

/-- Witness for C5 at a request whose only supplied field, `origin_x`, is a
non-finite value: the request fails with the `origin_x` message and the
stored row is unchanged. -/
theorem calibrate_project_validation_atomic_witness :
    calibrate_project defaultProject
        { emptyCalibrationRequest with origin_x := some RawValue.nan }
      = .error ("origin_x" ++ " must be a finite number")
    ∧ ("origin_x" ++ " must be a finite number") ∈ fieldMessages "origin_x"
    ∧ storedAfterCalibrate defaultProject
        { emptyCalibrationRequest with origin_x := some RawValue.nan }
      = defaultProject :=
  (calibrate_project_validation_atomic defaultProject
      { emptyCalibrationRequest with origin_x := some RawValue.nan }).1
    "origin_x" ("origin_x" ++ " must be a finite number") rfl

/-- C9: frame property of partial updates — after any successful calibration
request, every component whose field was absent from the request keeps
exactly its prior stored value (the scale pair counting as one field). -/
theorem calibrate_project_frame (db : Project ℚ) (r : CalibrationRequest)
    (p' : Project ℚ) (h : calibrate_project db r = .ok p') :
    ((r.pixel_distance = none ∨ r.real_distance = none) →
        p'.pixels_per_meter = db.pixels_per_meter
        ∧ p'.scale_calibrated = db.scale_calibrated)
    ∧ (r.origin_x = none → p'.origin_x = db.origin_x)
    ∧ (r.origin_y = none → p'.origin_y = db.origin_y)
    ∧ (r.canvas_rotation = none → p'.canvas_rotation = db.canvas_rotation)
    ∧ (r.asset_rotation = none → p'.asset_rotation = db.asset_rotation)
    ∧ (r.ref_asset_id = none → p'.ref_asset_id = db.ref_asset_id)
    ∧ (r.ref_pixel_x = none → p'.ref_pixel_x = db.ref_pixel_x)
    ∧ (r.ref_pixel_y = none → p'.ref_pixel_y = db.ref_pixel_y)
    ∧ (r.coord_unit = none → p'.coord_unit = db.coord_unit) := by
  have H := calibrate_ok_inv h
  exact ⟨H.1, H.2.1, H.2.2.1, H.2.2.2.1, H.2.2.2.2.1, H.2.2.2.2.2.1,
    H.2.2.2.2.2.2.1, H.2.2.2.2.2.2.2.1, H.2.2.2.2.2.2.2.2.1⟩

/-- Witness for C9 at a request supplying only the scale pair: the origin and
coordinate unit of the stored row are untouched by the successful update. -/
theorem calibrate_project_frame_witness :
    ({ defaultProject with pixels_per_meter := (200 : ℚ) / 2, scale_calibrated := true }
        : Project ℚ).origin_x = defaultProject.origin_x
    ∧ ({ defaultProject with pixels_per_meter := (200 : ℚ) / 2, scale_calibrated := true }
        : Project ℚ).coord_unit = defaultProject.coord_unit :=
  ⟨((calibrate_project_frame defaultProject (scaleOnlyRequest (.num 200) (.num 2))
      { defaultProject with pixels_per_meter := (200 : ℚ) / 2, scale_calibrated := true }
      rfl).2.1) rfl,
   ((calibrate_project_frame defaultProject (scaleOnlyRequest (.num 200) (.num 2))
      { defaultProject with pixels_per_meter := (200 : ℚ) / 2, scale_calibrated := true }
      rfl).2.2.2.2.2.2.2.2) rfl⟩

/-- Counterexample for C4: project import copies `pixels_per_meter` from the
payload without validation, so importing a payload with
`pixels_per_meter = -5` creates a stored project row whose
`pixels_per_meter` is not positive — the claimed invariant is not preserved
by project import. -/
theorem import_breaks_ppm_invariant_counterexample :
    ¬ (0 < (create_project_from_data
        { pixels_per_meter := some (-5)
          scale_calibrated := none
          coord_unit := none
          origin_x := none
          origin_y := none
          canvas_rotation := none
          asset_rotation := none
          ref_asset_id := none
          ref_pixel_x := none
          ref_pixel_y := none }).pixels_per_meter) := by
  norm_num [create_project_from_data]

/-- C4 (amended): `pixels_per_meter > 0` holds at project creation (default
100.0) and is preserved by the calibration endpoint — in particular by scale
calibration, whose validated inputs are strictly positive; project import is
excluded, since it copies the value unvalidated. -/
theorem ppm_positive_default_and_calibrate :
    0 < defaultProject.pixels_per_meter
    ∧ ∀ (db : Project ℚ) (r : CalibrationRequest) (p' : Project ℚ),
        calibrate_project db r = .ok p' →
        0 < db.pixels_per_meter → 0 < p'.pixels_per_meter := by
  refine ⟨by norm_num [defaultProject], ?_⟩
  intro db r p' h hpos
  exact (calibrate_ok_inv h).2.2.2.2.2.2.2.2.2 hpos

/-- Witness for C4 (amended): a concrete successful scale calibration from
the default state keeps `pixels_per_meter` positive. -/
theorem ppm_positive_default_and_calibrate_witness :
    0 < ({ defaultProject with pixels_per_meter := (200 : ℚ) / 2, scale_calibrated := true }
        : Project ℚ).pixels_per_meter :=
  ppm_positive_default_and_calibrate.2 defaultProject
    (scaleOnlyRequest (.num 200) (.num 2))
    { defaultProject with pixels_per_meter := (200 : ℚ) / 2, scale_calibrated := true }
    rfl ppm_positive_default_and_calibrate.1

end DocuWeaver

namespace DocuWeaver

end DocuWeaver

namespace DocuWeaver

/-- Counterexample for C3: with `pixels_per_meter = +inf` (non-finite), the
guard `not ppm or ppm <= 0` does not fire, the projection proceeds and the
output coordinates are NaN and `-inf` — the code neither fails with
`InvalidCalibrationState` nor avoids emitting NaN/Infinity. The projected
point is one degree of latitude north of the reference point. -/
theorem transform_nonfinite_ppm_emits_nan_inf :
    transform_cadastre_to_project_coords fpOps
        (some [{ geometry := some (Geom.polygon [[(FP.fin 0, FP.fin 1)]])
                 properties := [("LOT", "7")] }])
        fpInfProject
      = [{ geometry := some (Geom.polygon [[(FP.nan, FP.neginf)]])
           properties := [("LOT", "7")] }] := by
  decide

/-- C3 (amended): an invalid scale never fails with
`InvalidCalibrationState`. When `pixels_per_meter` is zero, negative or
falsy — and likewise when it is `-inf`, for which Python evaluates
`ppm <= 0` to True — the guard fires and the service silently returns the
empty feature list (first conjunct over finite values, second over `FP` for
`-inf`). NaN and `+inf` instead pass the guard, the projection proceeds, and
the output can contain NaN and Infinity coordinates (shown by the
counterexample's `+inf` evaluation). -/
theorem transform_cadastre_invalid_ppm_silent :
    (∀ (project : Project ℚ) (geojson : Option (List (Feature ℚ))),
        project.pixels_per_meter ≤ 0 →
        transform_cadastre_to_project_coords ratOps geojson project = [])
    ∧ (∀ (project : Project FP) (geojson : Option (List (Feature FP))),
        project.pixels_per_meter = FP.neginf →
        transform_cadastre_to_project_coords fpOps geojson project = []) := by
  constructor
  · intro project geojson h
    cases geojson with
    | none => rfl
    | some fs =>
      unfold transform_cadastre_to_project_coords
      cases hr : findRefAsset project with
      | none => rfl
      | some a =>
        have hg : ratOps.leZero project.pixels_per_meter = true := by
          simp [ratOps, h]
        simp [hg]
  · intro project geojson h
    cases geojson with
    | none => rfl
    | some fs =>
      unfold transform_cadastre_to_project_coords
      cases hr : findRefAsset project with
      | none => rfl
      | some a =>
        have hg : fpOps.leZero project.pixels_per_meter = true := by
          rw [h]
          rfl
        simp [hg]

/-- Witness for C3 (amended): a project calibrated with
`pixels_per_meter = -1` projects a nonempty collection to the empty list,
and so does one calibrated with `pixels_per_meter = -inf`. -/
theorem transform_cadastre_invalid_ppm_silent_witness :
    transform_cadastre_to_project_coords ratOps
        (some [{ geometry := some (Geom.polygon [[((0 : ℚ), (0 : ℚ))]])
                 properties := [] }])
        { defaultProject with pixels_per_meter := -1 }
      = []
    ∧ transform_cadastre_to_project_coords fpOps
        (some [{ geometry := some (Geom.polygon [[(FP.fin 0, FP.fin 1)]])
                 properties := [("LOT", "7")] }])
        { fpInfProject with pixels_per_meter := FP.neginf }
      = [] :=
  ⟨transform_cadastre_invalid_ppm_silent.1
      { defaultProject with pixels_per_meter := -1 }
      (some [{ geometry := some (Geom.polygon [[((0 : ℚ), (0 : ℚ))]])
               properties := [] }])
      (by norm_num [defaultProject]),
   transform_cadastre_invalid_ppm_silent.2
      { fpInfProject with pixels_per_meter := FP.neginf }
      (some [{ geometry := some (Geom.polygon [[(FP.fin 0, FP.fin 1)]])
               properties := [("LOT", "7")] }])
      rfl⟩

end DocuWeaver
